import Mathlib

/-!
Verification of `extract_music_files.py` (osu-music-extractor).

Shallow embedding conventions:
* A text file is given as its list of lines (newline terminators dropped;
  Python's `readlines` keeps them, but every use in the source either
  `strip()`s the line or tests a prefix, so the embedding is unaffected).
* Python string primitives (`str.strip`, `str.startswith`, `str.replace`,
  `str.split`) are embedded as computable functions on `List Char` lifted
  to `String`, so that concrete runs reduce inside the kernel.
* File bytes are `List Nat`.
* A directory ("beatmap folder") is a list of `FileNode`s; every node is a
  regular file.  `lines` is the text decoding of the node's content and
  `bytes` its raw content.
* Python exceptions are modelled with `Except String`: an uncaught
  exception is an `Except.error`.
* The external library `eyed3` is not part of this repository; the two
  places the source calls into it (`is_valid_mp3`, and the tag block of
  `write_song` from `eyed3.load` through `tag.save`) are modelled as oracle
  parameters (`is_valid_mp3 : List Nat → Bool` and
  `tagSave : List Nat → String → String → TagOutcome`).
-/

deriving instance DecidableEq for Except

namespace OsuExtract

/-- Python whitespace for `str.strip()` (ASCII cases). -/
def isPySpace (c : Char) : Bool :=
  c = ' ' || c = '\t' || c = '\n' || c = '\x0b' || c = '\x0c' || c = '\r'

/-- Python `str.strip()`: drop whitespace from both ends. -/
def pyStrip (s : String) : String :=
  ⟨((s.data.dropWhile isPySpace).reverse.dropWhile isPySpace).reverse⟩

/-- `startsWithChars s p`: `p` is an initial segment of `s`. -/
def startsWithChars : List Char → List Char → Bool
  | _, [] => true
  | [], _ :: _ => false
  | c :: cs, p :: ps => c = p && startsWithChars cs ps

/-- Python `str.startswith`. -/
def pyStartsWith (s pre : String) : Bool :=
  startsWithChars s.data pre.data

/-- Split a character list on every occurrence of `sep` (Python
`str.split(sep)` with no limit); always returns a nonempty list. -/
def splitOnChar (sep : Char) : List Char → List (List Char)
  | [] => [[]]
  | c :: rest =>
    match splitOnChar sep rest with
    | [] => [[c]]
    | h :: t => if c = sep then [] :: h :: t else (c :: h) :: t

/-- Join character lists with `sep` between them (inverse of
`splitOnChar`). -/
def joinWithChar (sep : Char) : List (List Char) → List Char
  | [] => []
  | [x] => x
  | x :: xs => x ++ sep :: joinWithChar sep xs

/-- `PUT_TITLE_BEFORE_ARTIST = True` (source line 13). -/
def PUT_TITLE_BEFORE_ARTIST : Bool := true

/-- `invalid_chars` (source line 15). -/
def invalid_chars : List Char := ['<', '>', ':', '"', '/', '\\', '|', '?', '*']

/-- `substitute_char = '-'` (source line 16). -/
def substitute_char : Char := '-'

/-- The `Song` dataclass (source lines 22-27).  `path` is the audio file's
name inside its beatmap folder. -/
structure Song where
  path : String
  title : String
  artist : String
  filename : String
deriving DecidableEq, Repr

/-- Python `line.split(':', 1)` on the character list: split at the first
colon.  `none` models the `ValueError` raised when no colon is present
(the two-variable unpacking in source line 46). -/
def splitColon : List Char → Option (List Char × List Char)
  | [] => none
  | c :: rest =>
    if c = ':' then some ([], rest)
    else
      match splitColon rest with
      | none => none
      | some (a, b) => some (c :: a, b)

/-- `line.split(':', 1)` lifted to strings. -/
def splitColonStr (s : String) : Option (String × String) :=
  match splitColon s.data with
  | none => none
  | some (a, b) => some (⟨a⟩, ⟨b⟩)

/-- The `for line in lines` loop of `get_section` (source lines 37-49).
The accumulated dictionary is an association list consed at the front, so
`List.lookup` (first match) gives Python's "last assignment wins"
semantics.  `Except.error` models the `ValueError` from
`line.split(':', 1)` when an in-section line has no colon. -/
def sectionLoop (sec : String) : List String → Bool → List (String × String) →
    Except String (List (String × String))
  | [], _, acc => .ok acc
  | line :: rest, inSec, acc =>
    if pyStartsWith line sec then
      sectionLoop sec rest true acc
    else if inSec then
      if pyStartsWith line "[" then .ok acc
      else
        match splitColonStr line with
        | none => .error "ValueError"
        | some (k, v) => sectionLoop sec rest inSec ((pyStrip k, pyStrip v) :: acc)
    else
      sectionLoop sec rest inSec acc

/-- `get_section` (source lines 29-49): blank lines are removed first, then
the section loop runs with `in_section = False` and an empty dictionary.
The file is given as its list of lines. -/
def get_section (lines : List String) (sec : String) :
    Except String (List (String × String)) :=
  sectionLoop sec (lines.filter (fun l => pyStrip l ≠ "")) false []

/-- `sanitize_filename` (source lines 51-58).  Each `str.replace` call has
single-character pattern and replacement, hence is a character map. -/
def sanitize_filename (s : String) : String :=
  invalid_chars.foldl
    (fun acc c => ⟨acc.data.map (fun x => if x = c then substitute_char else x)⟩) s

/-- `pathlib.Path.suffix` for a plain file name: the final extension
including its dot, or `""` when the name has no dot. -/
def suffix (name : String) : String :=
  let parts := splitOnChar '.' name.data
  if parts.length ≤ 1 then "" else ⟨'.' :: (parts.getLast?).getD []⟩

/-- `pathlib.Path.with_suffix` for a plain file name: drop the current
suffix and append the new one. -/
def withSuffix (name newSuf : String) : String :=
  let parts := splitOnChar '.' name.data
  (if parts.length ≤ 1 then name else ⟨joinWithChar '.' parts.dropLast⟩)
    ++ newSuf

/-- One regular file inside a beatmap folder.  `lines` is the text decoding
of the content and `bytes` its raw content. -/
structure FileNode where
  name : String
  lines : List String
  bytes : List Nat
deriving DecidableEq, Repr

/-- `analyse_folder` (source lines 60-98).  The folder is its list of
files.  `Except.error` models the `KeyError` raised by the bracketed
dictionary accesses (`general['AudioFilename']`, `metadata['Title']`,
`metadata['Artist']`), in the evaluation order of the source, and the
`ValueError` that `get_section` can raise. -/
def analyse_folder (folder : List FileNode) : Except String (Option Song) :=
  match folder.find? (fun f => suffix f.name = ".osu") with
  | none => .ok none
  | some osu =>
    match get_section osu.lines "[General]" with
    | .error e => .error e
    | .ok general =>
      match get_section osu.lines "[Metadata]" with
      | .error e => .error e
      | .ok metadata =>
        match List.lookup "AudioFilename" general with
        | none => .error "KeyError: AudioFilename"
        | some audioName =>
          if (folder.find? (fun f => f.name = audioName)).isNone then .ok none
          else
            match List.lookup "Title" metadata with
            | none => .error "KeyError: Title"
            | some title =>
              match List.lookup "Artist" metadata with
              | none => .error "KeyError: Artist"
              | some artist =>
                let filename :=
                  if PUT_TITLE_BEFORE_ARTIST then
                    sanitize_filename (title ++ " - " ++ artist ++ ".mp3")
                  else
                    sanitize_filename (artist ++ " - " ++ title ++ ".mp3")
                .ok (some
                  { path := audioName
                    title :=
                      match List.lookup "TitleUnicode" metadata with
                      | some u => u
                      | none => title
                    artist :=
                      match List.lookup "ArtistUnicode" metadata with
                      | some u => u
                      | none => artist
                    filename := filename })

/-- The contents of the output directory: file name paired with bytes. -/
abbrev FS : Type := List (String × List Nat)

/-- Look up a file's bytes in the output directory (`Path.exists` /
`read_bytes`). -/
def FS.lookup (fs : FS) (name : String) : Option (List Nat) :=
  List.lookup name fs

/-- `Path.write_bytes`: (over)write a file. -/
def FS.write (fs : FS) (name : String) (bytes : List Nat) : FS :=
  (name, bytes) :: fs.filter (fun p => decide (p.1 ≠ name))

/-- `shutil.move`: rename a file, overwriting any existing destination. -/
def FS.move (fs : FS) (oldName newName : String) : FS :=
  match fs.lookup oldName with
  | none => fs
  | some bytes => FS.write (fs.filter (fun p => decide (p.1 ≠ oldName))) newName bytes

/-- Outcome of the tag block of `write_song` (source lines 154-166, from
`eyed3.load(outputpath)` through `tag.save(encoding='utf-8')`), which is
entirely a call into the external `eyed3` library.  `ok newBytes` is a
successful save producing the tagged file, `notImplemented` is the
`NotImplementedError` that `eyed3` raises on ID3 v2.2 saves, `failure` is
any other exception from the block. -/
inductive TagOutcome
  | ok (newBytes : List Nat)
  | notImplemented
  | failure (msg : String)
deriving DecidableEq, Repr

/-- The two `print` diagnostics of `write_song` (source lines 145 and
147). -/
inductive Msg
  | renamed (oldName newName : String)
  | invalidWarning (name : String)
deriving DecidableEq, Repr

/-- The bytes `b'OggS'` (source line 142). -/
def oggSignature : List Nat := [0x4F, 0x67, 0x67, 0x53]

/-- `write_song` (source lines 121-168), with the two `eyed3`-backed steps
as oracles: `is_valid_mp3` for the function of the same name (source lines
111-119) and `tagSave` for the tag block (taking the copied bytes and the
artist/title written into the tag).  `songBytes` is
`song.path.read_bytes()`.  Returns the updated output directory, the
updated `songs_counter`, and the printed diagnostics; `Except.error`
models an exception escaping `write_song`. -/
def write_song ( is_valid_mp3 : List Nat → Bool)
    (tagSave : List Nat → String → String → TagOutcome)
    (song : Song) (songBytes : List Nat) (out : FS) (counter : Nat) :
    Except String (FS × Nat × List Msg) :=
  let outputpath := song.filename
  if (out.lookup outputpath).isSome then
    .ok (out, counter, [])
  else
    let out1 := out.write outputpath songBytes
    let counter1 := counter + 1
    if is_valid_mp3 songBytes = false then
      if songBytes.take 4 = oggSignature then
        let newOutputpath := withSuffix outputpath ".ogg"
        .ok (out1.move outputpath newOutputpath, counter1,
          [Msg.renamed outputpath newOutputpath])
      else
        .ok (out1, counter1, [Msg.invalidWarning outputpath])
    else
      match tagSave songBytes song.artist song.title with
      | .ok newBytes => .ok (out1.write outputpath newBytes, counter1, [])
      | .notImplemented => .ok (out1, counter1, [])
      | .failure e => .error e

/-- `process_beatmap_folder` (source lines 170-176).  A `Song` dataclass
instance is always truthy, so `if result:` is a `some` test. -/
def process_beatmap_folder ( is_valid_mp3 : List Nat → Bool)
    (tagSave : List Nat → String → String → TagOutcome)
    (folder : List FileNode) (out : FS) (counter : Nat) :
    Except String (FS × Nat × List Msg) :=
  match analyse_folder folder with
  | .error e => .error e
  | .ok none => .ok (out, counter, [])
  | .ok (some song) =>
    match folder.find? (fun f => f.name = song.path) with
    | none => .error "FileNotFoundError"
    | some node => write_song is_valid_mp3 tagSave song node.bytes out counter

/-- The `for path in tqdm(paths_to_scan)` loop of
`process_catalog_directory` (source lines 190-192), over the already
collected traversal units (each given as its list of files).  There is no
exception handler, so an error from one unit aborts the loop. -/
def process_catalog_directory ( is_valid_mp3 : List Nat → Bool)
    (tagSave : List Nat → String → String → TagOutcome) :
    List (List FileNode) → FS → Nat → Except String (FS × Nat × List Msg)
  | [], out, counter => .ok (out, counter, [])
  | folder :: rest, out, counter =>
    match process_beatmap_folder is_valid_mp3 tagSave folder out counter with
    | .error e => .error e
    | .ok (out1, counter1, msgs) =>
      match process_catalog_directory is_valid_mp3 tagSave rest out1 counter1 with
      | .error e => .error e
      | .ok (out2, counter2, msgs2) => .ok (out2, counter2, msgs ++ msgs2)

/-! ## Helper definitions used by the statements -/

/-- Pointwise effect of the whole replacement chain of
`sanitize_filename`. -/
def cleanChar (c : Char) : Char :=
  if c ∈ invalid_chars then substitute_char else c

/-- The key/value pair a well-formed `key: value` line contributes to a
section dictionary: split at the first colon, trim both sides. -/
def trimPair (line : String) : String × String :=
  match splitColonStr line with
  | none => ("", "")
  | some (k, v) => (pyStrip k, pyStrip v)

/-! ## Lemmas about `sanitize_filename` -/

lemma cleanChar_fixed (a : Char) : cleanChar a ∉ invalid_chars := by
  unfold cleanChar
  by_cases h : a ∈ invalid_chars
  · rw [if_pos h]; decide
  · rwa [if_neg h]

lemma cleanChar_idem (a : Char) : cleanChar (cleanChar a) = cleanChar a := by
  have h := cleanChar_fixed a
  unfold cleanChar
  rw [if_neg (by simpa [cleanChar] using h)]

lemma sanitize_filename_data (s : String) :
    (sanitize_filename s).data = s.data.map cleanChar := by
  show (List.foldl _ s invalid_chars).data = _
  simp only [invalid_chars, List.foldl_cons, List.foldl_nil, List.map_map]
  refine List.map_congr_left fun a _ => ?_
  by_cases h : a ∈ invalid_chars
  · have : cleanChar a = substitute_char := by simp [cleanChar, h]
    rw [this]
    fin_cases h <;> rfl
  · have hc : cleanChar a = a := by simp [cleanChar, h]
    rw [hc]
    simp only [invalid_chars, List.mem_cons, List.not_mem_nil, or_false, not_or] at h
    obtain ⟨h1, h2, h3, h4, h5, h6, h7, h8, h9⟩ := h
    simp [Function.comp, h1, h2, h3, h4, h5, h6, h7, h8, h9]

lemma sanitize_filename_eq (s : String) :
    sanitize_filename s = ⟨s.data.map cleanChar⟩ := by
  have h := sanitize_filename_data s
  cases hs : sanitize_filename s
  rw [hs] at h
  simp only at h
  rw [h]

/-! ## Lemmas about `sectionLoop` -/

lemma sectionLoop_not_started (sec : String) (acc : List (String × String)) :
    ∀ ls : List String, (∀ l ∈ ls, pyStartsWith l sec = false) →
      sectionLoop sec ls false acc = .ok acc
  | [], _ => rfl
  | l :: ls, h => by
    have hl := h l (List.mem_cons_self l ls)
    simp only [sectionLoop, hl, Bool.false_eq_true, if_false, if_neg]
    exact sectionLoop_not_started sec acc ls fun x hx => h x (List.mem_cons_of_mem l hx)

lemma sectionLoop_skip (sec : String) (acc : List (String × String))
    (ls : List String) :
    ∀ pre : List String, (∀ l ∈ pre, pyStartsWith l sec = false) →
      sectionLoop sec (pre ++ ls) false acc = sectionLoop sec ls false acc
  | [], _ => rfl
  | l :: pre, h => by
    have hl := h l (List.mem_cons_self l pre)
    simp only [List.cons_append, sectionLoop, hl, Bool.false_eq_true, if_false]
    exact sectionLoop_skip sec acc ls pre fun x hx => h x (List.mem_cons_of_mem l hx)

lemma sectionLoop_body (sec : String) (rest : List String) :
    ∀ (body : List String) (acc : List (String × String)),
      (∀ l ∈ body, pyStartsWith l sec = false ∧ pyStartsWith l "[" = false ∧
        (splitColonStr l).isSome = true) →
      sectionLoop sec (body ++ rest) true acc =
        sectionLoop sec rest true ((body.map trimPair).reverse ++ acc)
  | [], acc, _ => by simp
  | l :: body, acc, h => by
    obtain ⟨h1, h2, h3⟩ := h l (List.mem_cons_self l body)
    obtain ⟨⟨k, v⟩, hkv⟩ := Option.isSome_iff_exists.mp h3
    have htp : trimPair l = (pyStrip k, pyStrip v) := by
      simp [trimPair, hkv]
    simp only [List.cons_append, sectionLoop, h1, h2, Bool.false_eq_true, if_false,
      if_true, hkv]
    rw [List.append_eq,
      sectionLoop_body sec rest body ((pyStrip k, pyStrip v) :: acc)
        (fun x hx => h x (List.mem_cons_of_mem l hx))]
    simp [htp, List.append_assoc]

lemma sectionLoop_stop (sec : String) (acc : List (String × String))
    (rest : List String)
    (h : rest = [] ∨ ∃ r rs, rest = r :: rs ∧ pyStartsWith r sec = false ∧
      pyStartsWith r "[" = true) :
    sectionLoop sec rest true acc = .ok acc := by
  rcases h with rfl | ⟨r, rs, rfl, h1, h2⟩
  · rfl
  · simp [sectionLoop, h1, h2]

/-! ## Claim theorems -/

/-- C7.  `sanitize_filename` never outputs one of the nine forbidden
filename characters, and it is idempotent. -/
theorem C7_sanitize_safe_and_idempotent :
    (∀ s : String, ∀ c ∈ (sanitize_filename s).data, c ∉ invalid_chars) ∧
    (∀ s : String, sanitize_filename (sanitize_filename s) = sanitize_filename s) := by
  constructor
  · intro s c hc
    rw [sanitize_filename_data] at hc
    obtain ⟨a, _, rfl⟩ := List.mem_map.mp hc
    exact cleanChar_fixed a
  · intro s
    rw [sanitize_filename_eq s, sanitize_filename_eq ⟨s.data.map cleanChar⟩]
    simp only [List.map_map]
    exact congrArg String.mk (List.map_congr_left fun a _ => cleanChar_idem a)

/-- Witness for C7 at the concrete input `"a<b"`. -/
theorem C7_sanitize_safe_and_idempotent_witness :
    ('-' ∉ invalid_chars) ∧
      sanitize_filename (sanitize_filename "a<b") = sanitize_filename "a<b" :=
  ⟨C7_sanitize_safe_and_idempotent.1 "a<b" '-' (by decide),
   C7_sanitize_safe_and_idempotent.2 "a<b"⟩

/-- C3.  On a file whose (non-blank) lines consist of a prelude that never
mentions the requested section marker, the section header, a body of
`key: value` lines, and either end of input or a following
`[`-delimited header, `get_section` returns exactly the trimmed key/value
pairs of the body (as the dictionary the loop builds, most recent
assignment first); and the result only depends on the non-blank lines, so
it is unaffected by blank lines anywhere in the file. -/
theorem C3_get_section_wellformed
    (lines : List String) (sec secLine : String)
    (pre body rest : List String)
    (hsplit : lines.filter (fun l => pyStrip l ≠ "") = pre ++ secLine :: (body ++ rest))
    (hpre : ∀ l ∈ pre, pyStartsWith l sec = false)
    (hsec : pyStartsWith secLine sec = true)
    (hbody : ∀ l ∈ body, pyStartsWith l sec = false ∧ pyStartsWith l "[" = false ∧
      (splitColonStr l).isSome = true)
    (hrest : rest = [] ∨ ∃ r rs, rest = r :: rs ∧ pyStartsWith r sec = false ∧
      pyStartsWith r "[" = true) :
    get_section lines sec = .ok ((body.map trimPair).reverse) ∧
    ∀ lines₂ : List String,
      lines₂.filter (fun l => pyStrip l ≠ "") = lines.filter (fun l => pyStrip l ≠ "") →
      get_section lines₂ sec = get_section lines sec := by
  constructor
  · show sectionLoop sec (lines.filter (fun l => pyStrip l ≠ "")) false [] = _
    rw [hsplit, sectionLoop_skip sec [] (secLine :: (body ++ rest)) pre hpre]
    show (if pyStartsWith secLine sec = true then _ else _) = _
    rw [if_pos hsec, sectionLoop_body sec rest body [] hbody,
      sectionLoop_stop sec _ rest hrest, List.append_nil]
  · intro lines₂ h₂
    show sectionLoop sec (lines₂.filter _) false [] = sectionLoop sec (lines.filter _) false []
    rw [h₂]

/-- Witness for C3 on a concrete description file with blank lines. -/
theorem C3_get_section_wellformed_witness :
    get_section ["", "[General]", "AudioFilename: song.mp3", " ", "[Metadata]",
        "Title: Foo", "Artist: Bar", "[Events]"] "[Metadata]" =
      .ok [("Artist", "Bar"), ("Title", "Foo")] ∧
    get_section ["", "[General]", "AudioFilename: song.mp3", " ", "[Metadata]",
        "Title: Foo", "Artist: Bar", "[Events]"] "[Metadata]" =
      get_section ["[General]", "AudioFilename: song.mp3", "[Metadata]",
        "Title: Foo", "Artist: Bar", "[Events]"] "[Metadata]" := by
  have h := C3_get_section_wellformed
    ["", "[General]", "AudioFilename: song.mp3", " ", "[Metadata]",
      "Title: Foo", "Artist: Bar", "[Events]"] "[Metadata]" "[Metadata]"
    ["[General]", "AudioFilename: song.mp3"] ["Title: Foo", "Artist: Bar"]
    ["[Events]"] (by decide) (by decide) (by decide) (by decide)
    (Or.inr ⟨"[Events]", [], rfl, by decide, by decide⟩)
  exact ⟨h.1.trans (by decide),
    (h.2 ["[General]", "AudioFilename: song.mp3", "[Metadata]",
      "Title: Foo", "Artist: Bar", "[Events]"] (by decide)).symm⟩

/-- C10.  When no line of the file begins with the requested section
marker, `get_section` returns the empty dictionary (no exception), and a
key lookup on that dictionary — the way callers probe for required keys —
gives `none`. -/
theorem C10_get_section_missing_section
    (lines : List String) (sec : String)
    (h : ∀ l ∈ lines, pyStartsWith l sec = false) :
    get_section lines sec = .ok [] ∧
    ∀ k : String, ∃ m, get_section lines sec = .ok m ∧ List.lookup k m = none := by
  have hmain : get_section lines sec = .ok [] := by
    unfold get_section
    exact sectionLoop_not_started sec [] _ fun l hl => h l (List.mem_of_mem_filter hl)
  exact ⟨hmain, fun k => ⟨[], hmain, rfl⟩⟩

/-- Witness for C10: a file whose lines never mention `[Metadata]`. -/
theorem C10_get_section_missing_section_witness :
    get_section ["[General]", "AudioFilename: song.mp3"] "[Metadata]" = .ok [] :=
  (C10_get_section_missing_section ["[General]", "AudioFilename: song.mp3"]
    "[Metadata]" (by decide)).1

lemma FS.lookup_write_self (fs : FS) (n : String) (b : List Nat) :
    (fs.write n b).lookup n = some b := by
  simp [FS.lookup, FS.write, List.lookup]

/-- C4.  If the computed output path already exists, `write_song` leaves
the whole output directory (hence that file and every other file)
unchanged, does not increment the counter, and prints nothing; and
whenever a call ends with the counter incremented, the output path was
fresh before the call. -/
theorem C4_write_gate_skip_existing
    (iv : List Nat → Bool) (ts : List Nat → String → String → TagOutcome)
    (song : Song) (songBytes : List Nat) (out : FS) (counter : Nat) :
    ((FS.lookup out song.filename).isSome = true →
      write_song iv ts song songBytes out counter = .ok (out, counter, [])) ∧
    (∀ fs1 c1 m1, write_song iv ts song songBytes out counter = .ok (fs1, c1, m1) →
      c1 = counter + 1 → FS.lookup out song.filename = none) := by
  constructor
  · intro h
    simp [write_song, h]
  · intro fs1 c1 m1 hok hc
    by_cases h : (FS.lookup out song.filename).isSome = true
    · simp [write_song, h] at hok
      obtain ⟨-, hcc, -⟩ := hok
      omega
    · simpa [Option.isSome_iff_ne_none, not_not] using h

/-- Witness for C4: the output directory already holds `Foo - Bar.mp3`. -/
theorem C4_write_gate_skip_existing_witness :
    write_song (fun _ => true) (fun b _ _ => TagOutcome.ok b)
      ⟨"song.mp3", "Foo", "Bar", "Foo - Bar.mp3"⟩ [1, 2, 3]
      [("Foo - Bar.mp3", [9, 9])] 5 =
      .ok ([("Foo - Bar.mp3", [9, 9])], 5, []) :=
  (C4_write_gate_skip_existing (fun _ => true) (fun b _ _ => TagOutcome.ok b)
    ⟨"song.mp3", "Foo", "Bar", "Foo - Bar.mp3"⟩ [1, 2, 3]
    [("Foo - Bar.mp3", [9, 9])] 5).1 (by decide)

/-- C5.  On a fresh copy that fails MP3 validation: if its first four
bytes are `OggS` the file is renamed in place to the `.ogg` name and the
rename is reported; otherwise the file stays under its original name with
its original bytes and only a warning is reported.  In both cases the
result does not depend on the tag-writing oracle `ts`, i.e. no tag
writing is performed. -/
theorem C5_invalid_mp3_normalizer
    (iv : List Nat → Bool) (ts : List Nat → String → String → TagOutcome)
    (song : Song) (songBytes : List Nat) (out : FS) (counter : Nat)
    (hfresh : FS.lookup out song.filename = none)
    (hinv : iv songBytes = false) :
    (songBytes.take 4 = oggSignature →
      write_song iv ts song songBytes out counter =
        .ok ((FS.write out song.filename songBytes).move song.filename
              (withSuffix song.filename ".ogg"),
          counter + 1,
          [Msg.renamed song.filename (withSuffix song.filename ".ogg")])) ∧
    (songBytes.take 4 ≠ oggSignature →
      write_song iv ts song songBytes out counter =
        .ok (FS.write out song.filename songBytes, counter + 1,
          [Msg.invalidWarning song.filename])) := by
  constructor
  · intro hogg
    simp [write_song, hfresh, hinv, hogg]
  · intro hogg
    simp [write_song, hfresh, hinv, hogg]

/-- Witness for C5: an `OggS` payload is renamed, a junk payload only
warned about. -/
theorem C5_invalid_mp3_normalizer_witness :
    write_song (fun _ => false) (fun b _ _ => TagOutcome.ok b)
      ⟨"song.mp3", "Foo", "Bar", "Foo - Bar.mp3"⟩ [0x4F, 0x67, 0x67, 0x53, 7] [] 0 =
      .ok ((FS.write [] "Foo - Bar.mp3" [0x4F, 0x67, 0x67, 0x53, 7]).move
            "Foo - Bar.mp3" (withSuffix "Foo - Bar.mp3" ".ogg"),
        1, [Msg.renamed "Foo - Bar.mp3" (withSuffix "Foo - Bar.mp3" ".ogg")]) ∧
    write_song (fun _ => false) (fun b _ _ => TagOutcome.ok b)
      ⟨"song.mp3", "Foo", "Bar", "Foo - Bar.mp3"⟩ [1, 2, 3] [] 0 =
      .ok (FS.write [] "Foo - Bar.mp3" [1, 2, 3], 1,
        [Msg.invalidWarning "Foo - Bar.mp3"]) :=
  ⟨(C5_invalid_mp3_normalizer (fun _ => false) (fun b _ _ => TagOutcome.ok b)
      ⟨"song.mp3", "Foo", "Bar", "Foo - Bar.mp3"⟩ [0x4F, 0x67, 0x67, 0x53, 7] [] 0
      (by decide) rfl).1 (by decide),
   (C5_invalid_mp3_normalizer (fun _ => false) (fun b _ _ => TagOutcome.ok b)
      ⟨"song.mp3", "Foo", "Bar", "Foo - Bar.mp3"⟩ [1, 2, 3] [] 0
      (by decide) rfl).2 (by decide)⟩

/-- C8.  On a fresh, valid copy: a `NotImplementedError` from the tag-save
step is swallowed silently (the call still succeeds, the copied file is
retained, nothing is printed), while any other tag-save failure escapes
`write_song` as an error. -/
theorem C8_tag_save_failures
    (iv : List Nat → Bool) (ts : List Nat → String → String → TagOutcome)
    (song : Song) (songBytes : List Nat) (out : FS) (counter : Nat)
    (hfresh : FS.lookup out song.filename = none)
    (hvalid : iv songBytes = true) :
    (ts songBytes song.artist song.title = .notImplemented →
      write_song iv ts song songBytes out counter =
        .ok (FS.write out song.filename songBytes, counter + 1, [])) ∧
    (∀ e, ts songBytes song.artist song.title = .failure e →
      write_song iv ts song songBytes out counter = .error e) := by
  constructor
  · intro hts
    simp [write_song, hfresh, hvalid, hts]
  · intro e hts
    simp [write_song, hfresh, hvalid, hts]

/-- Witness for C8: one oracle raising `NotImplementedError`, one raising
another error. -/
theorem C8_tag_save_failures_witness :
    write_song (fun _ => true) (fun _ _ _ => TagOutcome.notImplemented)
      ⟨"song.mp3", "Foo", "Bar", "Foo - Bar.mp3"⟩ [1, 2, 3] [] 0 =
      .ok (FS.write [] "Foo - Bar.mp3" [1, 2, 3], 1, []) ∧
    write_song (fun _ => true) (fun _ _ _ => TagOutcome.failure "TagException")
      ⟨"song.mp3", "Foo", "Bar", "Foo - Bar.mp3"⟩ [1, 2, 3] [] 0 =
      .error "TagException" :=
  ⟨(C8_tag_save_failures (fun _ => true) (fun _ _ _ => TagOutcome.notImplemented)
      ⟨"song.mp3", "Foo", "Bar", "Foo - Bar.mp3"⟩ [1, 2, 3] [] 0
      (by decide) rfl).1 rfl,
   (C8_tag_save_failures (fun _ => true) (fun _ _ _ => TagOutcome.failure "TagException")
      ⟨"song.mp3", "Foo", "Bar", "Foo - Bar.mp3"⟩ [1, 2, 3] [] 0
      (by decide) rfl).2 "TagException" rfl⟩

/-- Counterexample to C2: with an invalid payload whose first four bytes
are `OggS`, the first call renames the copy to `.ogg`, so the `.mp3`
output path is free again and a second call with the same descriptor
copies the bytes a second time and increments the counter a second time
(to 2, not 1). -/
theorem C2_counterexample :
    write_song (fun _ => false) (fun b _ _ => TagOutcome.ok b)
      ⟨"song.mp3", "Foo", "Bar", "Foo - Bar.mp3"⟩ [0x4F, 0x67, 0x67, 0x53] [] 0 =
      .ok ([("Foo - Bar.ogg", [0x4F, 0x67, 0x67, 0x53])], 1,
        [Msg.renamed "Foo - Bar.mp3" "Foo - Bar.ogg"]) ∧
    write_song (fun _ => false) (fun b _ _ => TagOutcome.ok b)
      ⟨"song.mp3", "Foo", "Bar", "Foo - Bar.mp3"⟩ [0x4F, 0x67, 0x67, 0x53]
      [("Foo - Bar.ogg", [0x4F, 0x67, 0x67, 0x53])] 1 =
      .ok ([("Foo - Bar.ogg", [0x4F, 0x67, 0x67, 0x53])], 2,
        [Msg.renamed "Foo - Bar.mp3" "Foo - Bar.ogg"]) ∧
    (2 : Nat) ≠ 1 := by
  decide

/-- C2 as amended.  Calling `write_song` twice with the same descriptor
performs exactly one copy and one counter increment — the second call is a
no-op — provided the first call succeeds and leaves the copy under the
original output name: that is, unless the payload is invalid with an
`OggS` header (then the file is renamed away and the second call copies
and increments again, as `C2_counterexample` shows). -/
theorem C2_amended_write_twice
    (iv : List Nat → Bool) (ts : List Nat → String → String → TagOutcome)
    (song : Song) (songBytes : List Nat) (out : FS) (counter : Nat)
    (hfresh : FS.lookup out song.filename = none)
    (hogg : iv songBytes = false → songBytes.take 4 ≠ oggSignature)
    (htag : iv songBytes = true →
      ∀ e, ts songBytes song.artist song.title ≠ TagOutcome.failure e) :
    ∃ fs1 m1,
      write_song iv ts song songBytes out counter = .ok (fs1, counter + 1, m1) ∧
      write_song iv ts song songBytes fs1 (counter + 1) =
        .ok (fs1, counter + 1, []) := by
  cases hv : iv songBytes with
  | false =>
    refine ⟨FS.write out song.filename songBytes,
      [Msg.invalidWarning song.filename], ?_, ?_⟩
    · simp [write_song, hfresh, hv, hogg hv]
    · simp [write_song, FS.lookup_write_self]
  | true =>
    cases hts : ts songBytes song.artist song.title with
    | ok newBytes =>
      refine ⟨(FS.write out song.filename songBytes).write song.filename newBytes,
        [], ?_, ?_⟩
      · simp [write_song, hfresh, hv, hts]
      · simp [write_song, FS.lookup_write_self]
    | notImplemented =>
      refine ⟨FS.write out song.filename songBytes, [], ?_, ?_⟩
      · simp [write_song, hfresh, hv, hts]
      · simp [write_song, FS.lookup_write_self]
    | failure e => exact absurd hts (htag hv e)

/-- Witness for the amended C2: a valid payload with a succeeding tag
save is copied once; the repeat call is a no-op. -/
theorem C2_amended_write_twice_witness :
    ∃ fs1 m1,
      write_song (fun _ => true) (fun b _ _ => TagOutcome.ok b)
        ⟨"song.mp3", "Foo", "Bar", "Foo - Bar.mp3"⟩ [1, 2, 3] [] 0 =
        .ok (fs1, 1, m1) ∧
      write_song (fun _ => true) (fun b _ _ => TagOutcome.ok b)
        ⟨"song.mp3", "Foo", "Bar", "Foo - Bar.mp3"⟩ [1, 2, 3] fs1 1 =
        .ok (fs1, 1, []) :=
  C2_amended_write_twice (fun _ => true) (fun b _ _ => TagOutcome.ok b)
    ⟨"song.mp3", "Foo", "Bar", "Foo - Bar.mp3"⟩ [1, 2, 3] [] 0
    (by decide) (by decide) (fun _ e h => TagOutcome.noConfusion h)

/-- The result of `analyse_folder` on a folder whose first `.osu` file
parses and names an existing audio file, with `Title` and `Artist`
present. -/
lemma analyse_folder_eq (folder : List FileNode) (osu : FileNode)
    (g m : List (String × String)) (audioName title artist : String)
    (hosu : folder.find? (fun f => suffix f.name = ".osu") = some osu)
    (hG : get_section osu.lines "[General]" = .ok g)
    (hM : get_section osu.lines "[Metadata]" = .ok m)
    (hA : List.lookup "AudioFilename" g = some audioName)
    (hex : (folder.find? (fun f => f.name = audioName)).isNone = false)
    (hT : List.lookup "Title" m = some title)
    (hAr : List.lookup "Artist" m = some artist) :
    analyse_folder folder = .ok (some
      { path := audioName
        title := match List.lookup "TitleUnicode" m with | some u => u | none => title
        artist := match List.lookup "ArtistUnicode" m with | some u => u | none => artist
        filename := sanitize_filename (title ++ " - " ++ artist ++ ".mp3") }) := by
  unfold analyse_folder
  simp [hosu, hG, hM, hA, hex, hT, hAr, PUT_TITLE_BEFORE_ARTIST]

/-- Counterexample to C6: `TitleUnicode` is present but empty, yet the
descriptor's title is the empty string, not the plain `Title` value
`"Foo"`. -/
theorem C6_counterexample :
    analyse_folder
      [⟨"map.osu", ["[General]", "AudioFilename: song.mp3", "[Metadata]",
          "Title: Foo", "TitleUnicode:", "Artist: Bar"], []⟩,
       ⟨"song.mp3", [], [1]⟩] =
      .ok (some ⟨"song.mp3", "", "Bar", "Foo - Bar.mp3"⟩) ∧
    ("" : String) ≠ "Foo" := by
  decide

/-- C6 as amended.  The Unicode variant is used whenever its key is
present — even when its value is the empty string — and the plain
`Title`/`Artist` value is used only when the Unicode key is absent. -/
theorem C6_amended_unicode_preference (folder : List FileNode) (osu : FileNode)
    (g m : List (String × String)) (audioName title artist u : String)
    (hosu : folder.find? (fun f => suffix f.name = ".osu") = some osu)
    (hG : get_section osu.lines "[General]" = .ok g)
    (hM : get_section osu.lines "[Metadata]" = .ok m)
    (hA : List.lookup "AudioFilename" g = some audioName)
    (hex : (folder.find? (fun f => f.name = audioName)).isNone = false)
    (hT : List.lookup "Title" m = some title)
    (hAr : List.lookup "Artist" m = some artist) :
    (List.lookup "TitleUnicode" m = some u →
      ∃ s, analyse_folder folder = .ok (some s) ∧ s.title = u) ∧
    (List.lookup "TitleUnicode" m = none →
      ∃ s, analyse_folder folder = .ok (some s) ∧ s.title = title) ∧
    (List.lookup "ArtistUnicode" m = some u →
      ∃ s, analyse_folder folder = .ok (some s) ∧ s.artist = u) ∧
    (List.lookup "ArtistUnicode" m = none →
      ∃ s, analyse_folder folder = .ok (some s) ∧ s.artist = artist) := by
  have heq := analyse_folder_eq folder osu g m audioName title artist
    hosu hG hM hA hex hT hAr
  refine ⟨fun h => ⟨_, heq, ?_⟩, fun h => ⟨_, heq, ?_⟩,
    fun h => ⟨_, heq, ?_⟩, fun h => ⟨_, heq, ?_⟩⟩ <;> simp [h]

/-- Witness for the amended C6, with an empty `TitleUnicode` present. -/
theorem C6_amended_unicode_preference_witness :
    ∃ s, analyse_folder
      [⟨"beatmap.osu", ["[General]", "AudioFilename: audio.mp3", "[Metadata]",
          "Title: Real", "TitleUnicode:", "Artist: Someone"], []⟩,
       ⟨"audio.mp3", [], [2]⟩] = .ok (some s) ∧ s.title = "" :=
  (C6_amended_unicode_preference
    [⟨"beatmap.osu", ["[General]", "AudioFilename: audio.mp3", "[Metadata]",
        "Title: Real", "TitleUnicode:", "Artist: Someone"], []⟩,
     ⟨"audio.mp3", [], [2]⟩]
    ⟨"beatmap.osu", ["[General]", "AudioFilename: audio.mp3", "[Metadata]",
        "Title: Real", "TitleUnicode:", "Artist: Someone"], []⟩
    [("AudioFilename", "audio.mp3")]
    [("Artist", "Someone"), ("TitleUnicode", ""), ("Title", "Real")]
    "audio.mp3" "Real" "Someone" ""
    (by decide) (by decide) (by decide) (by decide) (by decide)
    (by decide) (by decide)).1 (by decide)

/-- C9.  The sanitized output filename is built from the plain `Title`
and `Artist` values only; two beatmap folders whose metadata sections
agree on `Title` and `Artist` (but may differ arbitrarily in
`TitleUnicode`/`ArtistUnicode`) produce descriptors with the same
filename. -/
theorem C9_filename_from_plain_fields
    (folder₁ folder₂ : List FileNode) (osu₁ osu₂ : FileNode)
    (g₁ g₂ m₁ m₂ : List (String × String))
    (audio₁ audio₂ title artist : String)
    (hosu₁ : folder₁.find? (fun f => suffix f.name = ".osu") = some osu₁)
    (hG₁ : get_section osu₁.lines "[General]" = .ok g₁)
    (hM₁ : get_section osu₁.lines "[Metadata]" = .ok m₁)
    (hA₁ : List.lookup "AudioFilename" g₁ = some audio₁)
    (hex₁ : (folder₁.find? (fun f => f.name = audio₁)).isNone = false)
    (hT₁ : List.lookup "Title" m₁ = some title)
    (hAr₁ : List.lookup "Artist" m₁ = some artist)
    (hosu₂ : folder₂.find? (fun f => suffix f.name = ".osu") = some osu₂)
    (hG₂ : get_section osu₂.lines "[General]" = .ok g₂)
    (hM₂ : get_section osu₂.lines "[Metadata]" = .ok m₂)
    (hA₂ : List.lookup "AudioFilename" g₂ = some audio₂)
    (hex₂ : (folder₂.find? (fun f => f.name = audio₂)).isNone = false)
    (hT₂ : List.lookup "Title" m₂ = some title)
    (hAr₂ : List.lookup "Artist" m₂ = some artist) :
    ∃ s₁ s₂, analyse_folder folder₁ = .ok (some s₁) ∧
      analyse_folder folder₂ = .ok (some s₂) ∧
      s₁.filename = sanitize_filename (title ++ " - " ++ artist ++ ".mp3") ∧
      s₂.filename = s₁.filename := by
  refine ⟨_, _,
    analyse_folder_eq folder₁ osu₁ g₁ m₁ audio₁ title artist
      hosu₁ hG₁ hM₁ hA₁ hex₁ hT₁ hAr₁,
    analyse_folder_eq folder₂ osu₂ g₂ m₂ audio₂ title artist
      hosu₂ hG₂ hM₂ hA₂ hex₂ hT₂ hAr₂, rfl, rfl⟩

/-- Witness for C9: two folders that differ only in their Unicode
metadata fields get the same output filename. -/
theorem C9_filename_from_plain_fields_witness :
    ∃ s₁ s₂,
      analyse_folder
        [⟨"a.osu", ["[General]", "AudioFilename: x.mp3", "[Metadata]",
            "Title: Foo", "Artist: Bar"], []⟩, ⟨"x.mp3", [], [1]⟩] =
        .ok (some s₁) ∧
      analyse_folder
        [⟨"b.osu", ["[General]", "AudioFilename: y.mp3", "[Metadata]",
            "Title: Foo", "TitleUnicode: フー", "Artist: Bar",
            "ArtistUnicode: バー"], []⟩, ⟨"y.mp3", [], [2]⟩] =
        .ok (some s₂) ∧
      s₁.filename = sanitize_filename ("Foo" ++ " - " ++ "Bar" ++ ".mp3") ∧
      s₂.filename = s₁.filename :=
  C9_filename_from_plain_fields
    [⟨"a.osu", ["[General]", "AudioFilename: x.mp3", "[Metadata]",
        "Title: Foo", "Artist: Bar"], []⟩, ⟨"x.mp3", [], [1]⟩]
    [⟨"b.osu", ["[General]", "AudioFilename: y.mp3", "[Metadata]",
        "Title: Foo", "TitleUnicode: フー", "Artist: Bar",
        "ArtistUnicode: バー"], []⟩, ⟨"y.mp3", [], [2]⟩]
    ⟨"a.osu", ["[General]", "AudioFilename: x.mp3", "[Metadata]",
        "Title: Foo", "Artist: Bar"], []⟩
    ⟨"b.osu", ["[General]", "AudioFilename: y.mp3", "[Metadata]",
        "Title: Foo", "TitleUnicode: フー", "Artist: Bar",
        "ArtistUnicode: バー"], []⟩
    [("AudioFilename", "x.mp3")] [("AudioFilename", "y.mp3")]
    [("Artist", "Bar"), ("Title", "Foo")]
    [("ArtistUnicode", "バー"), ("Artist", "Bar"),
      ("TitleUnicode", "フー"), ("Title", "Foo")]
    "x.mp3" "y.mp3" "Foo" "Bar"
    (by decide) (by decide) (by decide) (by decide) (by decide) (by decide)
    (by decide) (by decide) (by decide) (by decide) (by decide) (by decide)
    (by decide) (by decide)

/-- Counterexample to C1: a unit whose `[General]` section lacks
`AudioFilename` makes `analyse_folder` raise (`KeyError`), not return
"no song", and the uncaught error aborts the whole traversal: with the
malformed unit first, the following healthy unit — which on its own is
extracted fine — is never processed. -/
theorem C1_counterexample :
    analyse_folder [⟨"bad.osu", ["[General]", "[Metadata]",
        "Title: T", "Artist: A"], []⟩] =
      .error "KeyError: AudioFilename" ∧
    process_catalog_directory (fun _ => true) (fun b _ _ => TagOutcome.ok b)
      [[⟨"bad.osu", ["[General]", "[Metadata]", "Title: T", "Artist: A"], []⟩],
       [⟨"good.osu", ["[General]", "AudioFilename: song.mp3", "[Metadata]",
           "Title: Foo", "Artist: Bar"], []⟩, ⟨"song.mp3", [], [1, 2, 3]⟩]]
      [] 0 =
      .error "KeyError: AudioFilename" ∧
    process_catalog_directory (fun _ => true) (fun b _ _ => TagOutcome.ok b)
      [[⟨"good.osu", ["[General]", "AudioFilename: song.mp3", "[Metadata]",
          "Title: Foo", "Artist: Bar"], []⟩, ⟨"song.mp3", [], [1, 2, 3]⟩]]
      [] 0 =
      .ok ([("Foo - Bar.mp3", [1, 2, 3])], 1, []) := by
  decide

/-- C1 as amended.  A unit with no description file or with a missing
referenced audio file yields "no song" and traversal continues; but a
unit whose parsed `[General]` section lacks the required `AudioFilename`
key makes `analyse_folder` raise `KeyError`, and — there being no per-unit
exception handler — the error propagates and aborts the traversal of all
remaining units. -/
theorem C1_amended_missing_key_aborts
    (iv : List Nat → Bool) (ts : List Nat → String → String → TagOutcome)
    (folder : List FileNode) (osu : FileNode)
    (g m : List (String × String))
    (hosu : folder.find? (fun f => suffix f.name = ".osu") = some osu)
    (hG : get_section osu.lines "[General]" = .ok g)
    (hM : get_section osu.lines "[Metadata]" = .ok m)
    (hA : List.lookup "AudioFilename" g = none) :
    analyse_folder folder = .error "KeyError: AudioFilename" ∧
    ∀ (rest : List (List FileNode)) (out : FS) (counter : Nat),
      process_catalog_directory iv ts (folder :: rest) out counter =
        .error "KeyError: AudioFilename" := by
  have herr : analyse_folder folder = .error "KeyError: AudioFilename" := by
    unfold analyse_folder
    simp [hosu, hG, hM, hA]
  refine ⟨herr, fun rest out counter => ?_⟩
  unfold process_catalog_directory process_beatmap_folder
  rw [herr]

/-- Witness for the amended C1: the traversal over a malformed unit
followed by further units ends in the `KeyError`. -/
theorem C1_amended_missing_key_aborts_witness :
    analyse_folder [⟨"bad.osu", ["[General]", "Mode: 0", "[Metadata]",
        "Title: T", "Artist: A"], []⟩] =
      .error "KeyError: AudioFilename" ∧
    ∀ (rest : List (List FileNode)) (out : FS) (counter : Nat),
      process_catalog_directory (fun _ => true) (fun b _ _ => TagOutcome.ok b)
        ([⟨"bad.osu", ["[General]", "Mode: 0", "[Metadata]",
            "Title: T", "Artist: A"], []⟩] :: rest) out counter =
        .error "KeyError: AudioFilename" :=
  C1_amended_missing_key_aborts (fun _ => true) (fun b _ _ => TagOutcome.ok b)
    [⟨"bad.osu", ["[General]", "Mode: 0", "[Metadata]",
        "Title: T", "Artist: A"], []⟩]
    ⟨"bad.osu", ["[General]", "Mode: 0", "[Metadata]",
        "Title: T", "Artist: A"], []⟩
    [("Mode", "0")] [("Artist", "A"), ("Title", "T")]
    (by decide) (by decide) (by decide) (by decide)

end OsuExtract
